import Mathlib

/-!
# Verification of the invoice-PDF extraction pipeline (`invoices2.py`)

A shallow embedding of the extraction pipeline: locale-aware numeric
normalization (`clean_value`), pattern-prioritized text search
(`find_pattern` over a small regular-expression semantics), the
per-document procedure (`process_pdf`), the batch step, the row/report
builder (`InvoiceData.to_row`, `create_excel`) and the two-tier save
policy of `run`.

Text that is being scanned or rewritten character by character is
represented as `List Char`; identifiers, statuses and extracted field
values are `String`; Python `float` results are modelled as `ℚ`;
a Python function that may raise is modelled with `Option`/`Except`.
-/

/-! ## Numeric normalization (`PDFProcessor.clean_value`) -/

/-- One digit character folded into an accumulating natural number;
`digitsToNat "1234" = 1234`. This models what `float` does with the
integer part of its argument. -/
def digitsToNat (s : List Char) : Nat :=
  s.foldl (fun n c => 10 * n + (c.toNat - 48)) 0

/-- Model of Python `float(s)` restricted to the strings `clean_value`
can feed it (digits and at most one dot): `"1234"` parses as an integer,
`"12.5"`, `"12."` and `".5"` parse with a fractional part, while `""`,
`"."`, strings with two or more dots, or strings with any other
character fail (`float` raises `ValueError`, modelled as `none`). -/
def parseFloat (s : List Char) : Option ℚ :=
  if s.all (fun c => c.isDigit || c = '.') then
    match s.splitOn '.' with
    | [a] => if a.isEmpty then none else some (digitsToNat a : ℚ)
    | [a, b] =>
        if a.isEmpty && b.isEmpty then none
        else some ((digitsToNat a : ℚ) + (digitsToNat b : ℚ) / (10 : ℚ) ^ b.length)
    | _ => none
  else none

/-- `re.sub(r'[^\d.,]', '', value_str)`: keep only digits, `'.'` and `','`. -/
def stripNonNumeric (s : List Char) : List Char :=
  s.filter (fun c => c.isDigit || c = '.' || c = ',')

/-- The separator disambiguation of `clean_value`: if both `','` and `'.'`
occur, drop every `'.'` (`replace('.', '')`) and turn every `','` into
`'.'` (`replace(',', '.')`); if only `','` occurs, turn it into `'.'`;
otherwise leave the string unchanged. -/
def fixSeparators (s : List Char) : List Char :=
  if s.contains ',' && s.contains '.' then
    (s.filter (fun c => c ≠ '.')).map (fun c => if c = ',' then '.' else c)
  else if s.contains ',' then
    s.map (fun c => if c = ',' then '.' else c)
  else s

/-- `PDFProcessor.clean_value`: `None` or `""` give `None`; otherwise the
string is stripped to digits/`.`/`,`, the separators are disambiguated,
and the result is parsed as a float, with a parse failure caught and
turned into `None`. -/
def clean_value (value_str : Option String) : Option ℚ :=
  match value_str with
  | none => none
  | some str =>
      if str.isEmpty then none
      else parseFloat (fixSeparators (stripNonNumeric str.toList))

/-- The normalizer as the specification words it, step by step:
1. absent or empty input gives absent; 2. strip every character that is
not a digit, `'.'` or `','`; 3. disambiguate by cases on which
separators are present; 4. parse as a decimal number, absent on
failure. Written independently of `clean_value` to be compared with it. -/
def spec_normalize (raw : Option String) : Option ℚ :=
  match raw with
  | none => none
  | some str =>
      if str = "" then none
      else
        let kept := str.toList.filter (fun c => c.isDigit || c = '.' || c = ',')
        let disambiguated :=
          match kept.contains '.', kept.contains ',' with
          | true, true => (kept.filter (fun c => c ≠ '.')).map (fun c => if c = ',' then '.' else c)
          | false, true => kept.map (fun c => if c = ',' then '.' else c)
          | _, false => kept
        parseFloat disambiguated

/-! ## Regular expressions (`re.search` with `re.IGNORECASE`)

A small regular-expression language covering the constructs the
pattern constants of the program use: literals, character classes,
concatenation, alternation, star, option and one capture group.
Bounded repetitions such as `\d{1,2}` are expanded with `opt`, and
`+` with `seq a (star a)`, which preserves the greedy backtracking
order of the Python engine. -/

inductive RE where
  | eps
  | lit (c : Char)
  | cls (cs : List Char)
  | seq (a b : RE)
  | alt (a b : RE)
  | star (a : RE)
  | opt (a : RE)
  | group (a : RE)
deriving DecidableEq

/-- Case-insensitive character comparison (`re.IGNORECASE`). -/
def ciEq (a b : Char) : Bool := a.toLower = b.toLower

/-- All candidate ways a regex can match at the start of `s`, as pairs
(suffix left over, text captured by group 1 if it participated), listed
in the priority order of a backtracking engine: greedy repetition first,
left alternative first.  `fuel` bounds the recursion depth. -/
def reMatch : Nat → RE → List Char → List (List Char × Option (List Char))
  | 0, _, _ => []
  | _ + 1, .eps, s => [(s, none)]
  | _ + 1, .lit c, s =>
      match s with
      | [] => []
      | x :: xs => if ciEq x c then [(xs, none)] else []
  | _ + 1, .cls cs, s =>
      match s with
      | [] => []
      | x :: xs => if cs.any (fun c => ciEq x c) then [(xs, none)] else []
  | fuel + 1, .seq a b, s =>
      (reMatch fuel a s).flatMap fun p =>
        (reMatch fuel b p.1).map fun q => (q.1, p.2 <|> q.2)
  | fuel + 1, .alt a b, s => reMatch fuel a s ++ reMatch fuel b s
  | fuel + 1, .opt a, s => reMatch fuel a s ++ [(s, none)]
  | fuel + 1, .star a, s =>
      ((reMatch fuel a s).flatMap fun p =>
        if p.1.length < s.length then
          (reMatch fuel (.star a) p.1).map fun q => (q.1, p.2 <|> q.2)
        else []) ++ [(s, none)]
  | fuel + 1, .group a, s =>
      (reMatch fuel a s).map fun p => (p.1, some (s.take (s.length - p.1.length)))

/-- Structural size of a regex, used to pick a sufficient fuel. -/
def reSize : RE → Nat
  | .eps => 1
  | .lit _ => 1
  | .cls _ => 1
  | .seq a b => reSize a + reSize b + 1
  | .alt a b => reSize a + reSize b + 1
  | .star a => reSize a + 1
  | .opt a => reSize a + 1
  | .group a => reSize a + 1

/-- The match attempt at one fixed position, with fuel ample for the
pattern and the text. -/
def reMatchHere (r : RE) (s : List Char) : List (List Char × Option (List Char)) :=
  reMatch ((reSize r + 2) * (s.length + 2)) r s

/-- Model of `re.search(pattern, text, re.IGNORECASE)` followed by
`match.group(1)`: try the pattern at position 0, 1, 2, … of the text and
take the highest-priority match at the leftmost position where one
exists; `none` means the search found no match at all, `some g` means a
match was found whose group 1 captured `g` (or did not participate). -/
def reSearch (r : RE) (s : List Char) : Option (Option (List Char)) :=
  match (reMatchHere r s).head? with
  | some p => some p.2
  | none =>
      match s with
      | [] => none
      | _ :: xs => reSearch r xs

/-- `PDFProcessor.find_pattern`: walk the pattern list in order; on the
first pattern whose search succeeds, return its group-1 capture. -/
def find_pattern (text : List Char) (patterns : List RE) : Option String :=
  match patterns with
  | [] => none
  | p :: ps =>
      match reSearch p text with
      | some g => g.map List.asString
      | none => find_pattern text ps

/-- `\d` -/
def reDigit : RE := .cls "0123456789".toList

/-- `\s` -/
def reSpace : RE := .cls " \t\n\r\x0b\x0c".toList

/-- `a+` as `a` then `a*`, preserving the greedy order. -/
def rePlus (a : RE) : RE := .seq a (.star a)

/-- A literal word, one case-insensitive character at a time. -/
def reStr (s : String) : RE := s.toList.foldr (fun c r => .seq (.lit c) r) .eps

/-- `\s*` -/
def spaceStar : RE := .star reSpace

/-- `(\d+)` -/
def digitsGroup : RE := .group (rePlus reDigit)

/-- `\d{1,2}` -/
def reD12 : RE := .seq reDigit (.opt reDigit)

/-- `[\/\-]` -/
def reDateSep : RE := .cls ['/', '-']

/-- `(\d{1,2}[\/\-]\d{1,2}[\/\-]\d{4})` -/
def dateGroup : RE :=
  .group (.seq reD12 (.seq reDateSep (.seq reD12 (.seq reDateSep
    (.seq reDigit (.seq reDigit (.seq reDigit reDigit)))))))

/-- `([\d.,]+)` -/
def moneyGroup : RE := .group (rePlus (.cls "0123456789.,".toList))

/-! The pattern constants of the source, in their listed order. -/

namespace Patterns

/-- `Patterns.NUMBER` -/
def NUMBER : List RE :=
  [ .seq (.lit '#') (.seq spaceStar digitsGroup),
    .seq (reStr "Invoice") (.seq spaceStar (.seq (.opt (.lit '#')) (.seq spaceStar
      (.seq (.opt (.lit ':')) (.seq spaceStar digitsGroup))))),
    .seq (reStr "Fatura") (.seq spaceStar (.seq (.opt (.lit '#')) (.seq spaceStar
      (.seq (.opt (.lit ':')) (.seq spaceStar digitsGroup))))),
    .seq (.lit 'N') (.seq (.cls ['ú', 'u']) (.seq (reStr "mero")
      (.seq spaceStar (.seq (.opt (.lit ':')) (.seq spaceStar digitsGroup))))) ]

/-- `Patterns.DATE` -/
def DATE : List RE :=
  [ .seq (reStr "Date") (.seq spaceStar (.seq (.opt (.lit ':')) (.seq spaceStar dateGroup))),
    .seq (reStr "Data") (.seq spaceStar (.seq (.opt (.lit ':')) (.seq spaceStar dateGroup))),
    dateGroup ]

/-- `Patterns.VALUE` -/
def VALUE : List RE :=
  [ .seq (reStr "Total") (.seq spaceStar (.seq (.opt (.lit ':')) (.seq spaceStar
      (.seq (.opt (.lit 'R')) (.seq (.opt (.lit '$')) (.seq spaceStar moneyGroup)))))),
    .seq (reStr "Valor") (.seq spaceStar (.seq (.opt (.lit ':')) (.seq spaceStar
      (.seq (.opt (.lit 'R')) (.seq (.opt (.lit '$')) (.seq spaceStar moneyGroup)))))),
    .seq (.lit 'R') (.seq (.lit '$') (.seq spaceStar moneyGroup)),
    .group (.seq reD12 (.seq (.opt reDigit) (.seq
      (.star (.seq (.lit '.') (.seq reDigit (.seq reDigit reDigit))))
      (.seq (.lit ',') (.seq reDigit reDigit))))) ]

end Patterns

theorem clean_value_eq_spec_normalize : ∀ raw, clean_value raw = spec_normalize raw := by
  intro raw
  cases raw with
  | none => rfl
  | some str =>
      by_cases hs : str = ""
      · subst hs; rfl
      · simp only [clean_value, spec_normalize, String.isEmpty_iff, hs, if_false]
        unfold stripNonNumeric
        generalize List.filter (fun c => c.isDigit || c = '.' || c = ',') str.toList = t
        unfold fixSeparators
        rcases hd : t.contains '.' <;> rcases hc : t.contains ',' <;> simp [hd, hc]

/-! ## Records and rows (`InvoiceData`, `InvoiceData.to_row`) -/

/-- A spreadsheet cell value: a string or a number. -/
inductive Cell where
  | str (s : String)
  | num (q : ℚ)
deriving DecidableEq

/-- The dataclass `InvoiceData` with its defaults. -/
structure InvoiceData where
  filename : String
  number : Option String := none
  date : Option String := none
  value : Option ℚ := none
  status : String := "Processado"
deriving DecidableEq

/-- The display sentinel `"Não encontrado"`. -/
def notFound : Cell := .str "Não encontrado"

/-- Python `x or alt` for an optional string: `alt` when `x` is `None`
or the empty string (both falsy), `x` otherwise. -/
def pyOrStr (v : Option String) (alt : Cell) : Cell :=
  match v with
  | none => alt
  | some s => if s.isEmpty then alt else .str s

/-- Python `x or alt` for an optional float: `alt` when `x` is `None`
or `0.0` (both falsy), `x` otherwise. -/
def pyOrNum (v : Option ℚ) (alt : Cell) : Cell :=
  match v with
  | none => alt
  | some q => if q = 0 then alt else .num q

/-- `InvoiceData.to_row`: `[number or sentinel, date or sentinel,
value or sentinel, filename, status]` with Python truthiness. -/
def InvoiceData.to_row (inv : InvoiceData) : List Cell :=
  [ pyOrStr inv.number notFound,
    pyOrStr inv.date notFound,
    pyOrNum inv.value notFound,
    .str inv.filename,
    .str inv.status ]

/-- The row as the (amended) specification words it: the sentinel stands
in a number/date/value cell exactly when the field is absent or is a
falsy value (the empty string for the text fields, zero for the value),
followed by the source identifier and the status text. Written
independently of `to_row` to be compared with it. -/
def spec_row (inv : InvoiceData) : List Cell :=
  [ match inv.number with
    | none => notFound
    | some s => if s = "" then notFound else .str s,
    match inv.date with
    | none => notFound
    | some s => if s = "" then notFound else .str s,
    match inv.value with
    | none => notFound
    | some q => if q = 0 then notFound else .num q,
    .str inv.filename,
    .str inv.status ]

/-- The fixed header row, from `Config.HEADERS` (cells `A1`–`E1`). -/
def HEADERS : List Cell :=
  [ .str "Número da fatura", .str "Data de emissão", .str "Valor da fatura",
    .str "Nome do arquivo", .str "Status" ]

/-! ## Per-document processing (`extract_text`, `process_pdf`) -/

/-- A document handle together with what the external text-extraction
collaborator does on it: `Except.error msg` models `pdfplumber` raising
an exception with message `msg`, `Except.ok t` models it returning the
joined page text `t`. -/
structure Doc where
  name : String
  pdfplumber : Except String (List Char)

/-- `PDFProcessor.extract_text`: the whole body is wrapped in
`try/except`; a raising collaborator is caught, logged, and turned into
the empty string. -/
def extract_text (d : Doc) : List Char :=
  match d.pdfplumber with
  | .ok t => t
  | .error _ => []

/-- `PDFProcessor.process_pdf`, generalized over the field-search
function so that independence from it can be stated: empty text
short-circuits with status `"Erro: PDF vazio"`; otherwise the three
fields are extracted and the default status `"Processado"` is kept.
(The `except` branch of `process_pdf` is unreachable in this model:
every operation in its `try` block is total — `extract_text` catches
its own exceptions.) -/
def process_pdf_with (find : List Char → List RE → Option String) (d : Doc) : InvoiceData :=
  let text := extract_text d
  if text.isEmpty then
    { filename := d.name, status := "Erro: PDF vazio" }
  else
    { filename := d.name,
      number := find text Patterns.NUMBER,
      date := find text Patterns.DATE,
      value := clean_value (find text Patterns.VALUE),
      status := "Processado" }

/-- `PDFProcessor.process_pdf` as the source has it, with `find_pattern`. -/
def process_pdf : Doc → InvoiceData := process_pdf_with find_pattern

/-- The batch step of `run`: `[self.process_pdf(pdf) for pdf in pdf_files]`. -/
def process_batch (docs : List Doc) : List InvoiceData :=
  docs.map process_pdf

/-! ## Report construction and persistence (`create_excel`, `run`) -/

/-- An openpyxl workbook, reduced to what the program writes into it. -/
structure Workbook where
  title : String
  rows : List (List Cell)
deriving DecidableEq

/-- The worksheet content `create_excel` writes: the header at row 1,
then one row per invoice from row 2 on. -/
def create_excel_rows (invoices : List InvoiceData) : List (List Cell) :=
  HEADERS :: invoices.map InvoiceData.to_row

/-- The workbook `create_excel` constructs and populates. -/
def create_excel_workbook (invoices : List InvoiceData) : Workbook :=
  { title := "Invoices", rows := create_excel_rows invoices }

/-- `PDFProcessor.create_excel`. Its `try` block builds and populates
the workbook; `exc` models an exception raised while doing so, carrying
the partially built workbook the `except` branch would `return wb`. On
the exception-free path the function body ends without a `return`
statement, so Python returns `None`. -/
def create_excel (exc : Option Workbook) (invoices : List InvoiceData) : Option Workbook :=
  match exc with
  | some wbAtFailure => some wbAtFailure
  | none =>
      let _wb := create_excel_workbook invoices
      none

/-- `wb.save(path)` as run sees it: when `wb` is `None` the attribute
access raises (`False`: the write fails); when a workbook is present the
external sink decides (`ok`). -/
def wbSaveOk : Option Workbook → Bool → Bool
  | none, _ => false
  | some _, ok => ok

/-- The two save tiers of `run`, with the trace of whether the fallback
tier was entered: the primary save is attempted first; only on its
failure the `except` branch attempts the fallback save; a fallback
failure is re-raised out of `run` (`none`). -/
def savePhaseTrace (wb : Option Workbook) (primaryOk fallbackOk : Bool) : Bool × Option Bool :=
  if wbSaveOk wb primaryOk then (false, some true)
  else if wbSaveOk wb fallbackOk then (true, some true)
  else (true, none)

/-- The result of the save phase alone. -/
def savePhase (wb : Option Workbook) (primaryOk fallbackOk : Bool) : Option Bool :=
  (savePhaseTrace wb primaryOk fallbackOk).2

/-- `Config.EXCEL_DIR`. -/
def EXCEL_DIR : String := "C:\\Users\\Felipe\\Documents\\Projects\\python_auto\\excel_sheets"

/-- `f'invoices_\x7btimestamp\x7d.xlsx'` -/
def excel_filename (timestamp : String) : String := "invoices_" ++ timestamp ++ ".xlsx"

/-- The primary save target `self.config.EXCEL_DIR / f'invoices_….xlsx'`. -/
def excel_path (timestamp : String) : String := EXCEL_DIR ++ "\\" ++ excel_filename timestamp

/-- The fallback save target `Path(f'invoices_….xlsx')` in the current
working directory. -/
def fallback_path (timestamp : String) : String := excel_filename timestamp

/-- The external circumstances of one `run`. -/
structure RunEnv where
  pdfDirExists : Bool
  docs : List Doc
  createExcelExc : Option Workbook
  primarySaveOk : Bool
  fallbackSaveOk : Bool

/-- `PDFProcessor.run`: validation, batch processing, workbook
construction, then the two-tier save. `some b` models `return b`;
`none` models an exception escaping `run`. -/
def run (env : RunEnv) : Option Bool :=
  if !env.pdfDirExists then some false
  else if env.docs.isEmpty then some false
  else
    let invoices := process_batch env.docs
    let wb := create_excel env.createExcelExc invoices
    savePhase wb env.primarySaveOk env.fallbackSaveOk

/-! ## Claim theorems -/

/-- C5: the value normalizer strips every character that is not a digit,
`'.'` or `','`, then disambiguates (both separators present → drop the
dots and turn the comma into a dot; only a comma → turn it into a dot;
only a dot or neither → leave as is) and parses the result as a decimal
number; in particular `"1.234,56" ↦ 1234.56`, `"1234,56" ↦ 1234.56` and
`"1.234" ↦ 1.234` (not 1234). -/
theorem C5_normalization_policy :
    (∀ raw, clean_value raw = spec_normalize raw) ∧
    clean_value (some "1.234,56") = some (1234.56 : ℚ) ∧
    clean_value (some "1234,56") = some (1234.56 : ℚ) ∧
    clean_value (some "1.234") = some (1.234 : ℚ) := by
  refine ⟨clean_value_eq_spec_normalize, ?_, ?_, ?_⟩
  · show parseFloat (fixSeparators (stripNonNumeric "1.234,56".toList)) = _
    have h : fixSeparators (stripNonNumeric "1.234,56".toList) = "1234.56".toList := by decide
    rw [h]
    show some ((digitsToNat "1234".toList : ℚ) + (digitsToNat "56".toList : ℚ) / (10 : ℚ) ^ ("56".toList.length)) = _
    have h1 : digitsToNat "1234".toList = 1234 := rfl
    have h2 : digitsToNat "56".toList = 56 := rfl
    have h3 : ("56".toList.length) = 2 := rfl
    rw [h1, h2, h3]
    norm_num
  · show parseFloat (fixSeparators (stripNonNumeric "1234,56".toList)) = _
    have h : fixSeparators (stripNonNumeric "1234,56".toList) = "1234.56".toList := by decide
    rw [h]
    show some ((digitsToNat "1234".toList : ℚ) + (digitsToNat "56".toList : ℚ) / (10 : ℚ) ^ ("56".toList.length)) = _
    have h1 : digitsToNat "1234".toList = 1234 := rfl
    have h2 : digitsToNat "56".toList = 56 := rfl
    have h3 : ("56".toList.length) = 2 := rfl
    rw [h1, h2, h3]
    norm_num
  · show parseFloat (fixSeparators (stripNonNumeric "1.234".toList)) = _
    have h : fixSeparators (stripNonNumeric "1.234".toList) = "1.234".toList := by decide
    rw [h]
    show some ((digitsToNat "1".toList : ℚ) + (digitsToNat "234".toList : ℚ) / (10 : ℚ) ^ ("234".toList.length)) = _
    have h1 : digitsToNat "1".toList = 1 := rfl
    have h2 : digitsToNat "234".toList = 234 := rfl
    have h3 : ("234".toList.length) = 3 := rfl
    rw [h1, h2, h3]
    norm_num

/-- C9: the value normalizer returns absent on absent input, on empty
input, and whenever the disambiguated string fails to parse as a
decimal number (in particular for `"abc"`); being a total function it
never raises. -/
theorem C9_normalizer_failure_is_absent :
    clean_value none = none ∧
    clean_value (some "") = none ∧
    clean_value (some "abc") = none ∧
    ∀ s : String, s.isEmpty = false →
      parseFloat (fixSeparators (stripNonNumeric s.toList)) = none →
      clean_value (some s) = none := by
  refine ⟨rfl, by decide, by decide, ?_⟩
  intro s hs hp
  simp only [clean_value, hs]
  simp only [Bool.false_eq_true, if_false]
  exact hp

/-- Witness for C9 at the concrete input `"xyz"`. -/
theorem C9_witness :
    "xyz".isEmpty = false ∧
    parseFloat (fixSeparators (stripNonNumeric "xyz".toList)) = none ∧
    clean_value (some "xyz") = none :=
  ⟨rfl, by decide, C9_normalizer_failure_is_absent.2.2.2 "xyz" rfl (by decide)⟩

/-- C4: the batch step produces exactly one record per input document,
in input order: output length equals input length and the record at
every index is the processing of the document at the same index. -/
theorem C4_batch_one_record_per_document :
    ∀ (docs : List Doc),
      process_batch docs = docs.map process_pdf ∧
      (process_batch docs).length = docs.length ∧
      ∀ i : Nat, (process_batch docs)[i]? = (docs[i]?).map process_pdf := by
  intro docs
  refine ⟨rfl, by simp [process_batch], fun i => ?_⟩
  simp [process_batch]

/-- C7: a document whose text extraction returns the empty string gets
status `"Erro: PDF vazio"` with all three fields absent, and the result
does not depend on the field-search function at all (the procedure
short-circuits before any field extraction). -/
theorem C7_empty_text_short_circuits :
    ∀ d : Doc, d.pdfplumber = Except.ok [] →
      process_pdf d =
        { filename := d.name, number := none, date := none, value := none,
          status := "Erro: PDF vazio" } ∧
      ∀ f, process_pdf_with f d = process_pdf d := by
  intro d h
  have ht : extract_text d = [] := by simp [extract_text, h]
  exact ⟨by simp [process_pdf, process_pdf_with, ht], fun f => by simp [process_pdf, process_pdf_with, ht]⟩

/-- Witness for C7 at a concrete empty document. -/
theorem C7_witness :
    (⟨"empty.pdf", Except.ok []⟩ : Doc).pdfplumber = Except.ok [] ∧
    process_pdf ⟨"empty.pdf", Except.ok []⟩ =
      { filename := "empty.pdf", number := none, date := none, value := none,
        status := "Erro: PDF vazio" } ∧
    ∀ f, process_pdf_with f ⟨"empty.pdf", Except.ok []⟩ = process_pdf ⟨"empty.pdf", Except.ok []⟩ :=
  ⟨rfl, (C7_empty_text_short_circuits ⟨"empty.pdf", Except.ok []⟩ rfl).1,
    (C7_empty_text_short_circuits ⟨"empty.pdf", Except.ok []⟩ rfl).2⟩

/-- C10: a record's status differs from `"Processado"` exactly when an
unrecoverable condition occurred (the collaborator raised, or it
returned no text); the extracted field values never influence the
status, so a field miss alone leaves the status at `"Processado"`. -/
theorem C10_status_iff_unrecoverable :
    ∀ d : Doc,
      ((process_pdf d).status ≠ "Processado" ↔
        ((∃ m, d.pdfplumber = Except.error m) ∨ d.pdfplumber = Except.ok [])) ∧
      ∀ f, (process_pdf_with f d).status = (process_pdf d).status := by
  intro d
  rcases d with ⟨n, r⟩
  cases r with
  | error m =>
      refine ⟨⟨fun _ => Or.inl ⟨m, rfl⟩, fun _ => ?_⟩, fun f => rfl⟩
      intro hco
      have hco2 : "Erro: PDF vazio" = "Processado" := hco
      exact absurd hco2 (by decide)
  | ok t =>
      cases t with
      | nil =>
          refine ⟨⟨fun _ => Or.inr rfl, fun _ => ?_⟩, fun f => rfl⟩
          intro hco
          have hco2 : "Erro: PDF vazio" = "Processado" := hco
          exact absurd hco2 (by decide)
      | cons c cs =>
          refine ⟨⟨fun hst => absurd rfl hst, fun hor => ?_⟩, fun f => rfl⟩
          rcases hor with ⟨m, hm⟩ | hm <;> simp at hm

/-- C1 counterexample: for the concrete document whose collaborator
raises with message `"boom"`, the record's status is the EmptyDocument
marker `"Erro: PDF vazio"`, not an ExtractionError carrying the
failure's message (`"Erro: boom"` is what the `except` branch of
`process_pdf` would produce). -/
theorem C1_counterexample :
    (process_pdf ⟨"bad.pdf", Except.error "boom"⟩).status = "Erro: PDF vazio" ∧
    (process_pdf ⟨"bad.pdf", Except.error "boom"⟩).status ≠ "Erro: " ++ "boom" := by
  exact ⟨rfl, by decide⟩

/-- C1 (amended): a document whose text-extraction collaborator raises
has the exception caught inside `extract_text`, which logs it and
returns the empty string, so `process_pdf` returns a record with the
EmptyDocument status `"Erro: PDF vazio"` and all fields absent (the
failure's message is not carried); processing of the subsequent
documents in the batch continues. -/
theorem C1_amended_raising_extraction_yields_empty_status :
    ∀ (d : Doc) (m : String) (rest : List Doc), d.pdfplumber = Except.error m →
      process_pdf d =
        { filename := d.name, number := none, date := none, value := none,
          status := "Erro: PDF vazio" } ∧
      process_batch (d :: rest) = process_pdf d :: process_batch rest := by
  intro d m rest h
  rcases d with ⟨n, r⟩
  cases h
  exact ⟨rfl, rfl⟩

/-- Witness for the amended C1 at a concrete raising document followed
by another document. -/
theorem C1_amended_witness :
    (⟨"bad.pdf", Except.error "boom"⟩ : Doc).pdfplumber = Except.error "boom" ∧
    process_pdf ⟨"bad.pdf", Except.error "boom"⟩ =
      { filename := "bad.pdf", number := none, date := none, value := none,
        status := "Erro: PDF vazio" } ∧
    process_batch [⟨"bad.pdf", Except.error "boom"⟩, ⟨"ok.pdf", Except.ok []⟩] =
      process_pdf ⟨"bad.pdf", Except.error "boom"⟩ :: process_batch [⟨"ok.pdf", Except.ok []⟩] :=
  ⟨rfl,
    (C1_amended_raising_extraction_yields_empty_status ⟨"bad.pdf", Except.error "boom"⟩ "boom"
      [⟨"ok.pdf", Except.ok []⟩] rfl).1,
    (C1_amended_raising_extraction_yields_empty_status ⟨"bad.pdf", Except.error "boom"⟩ "boom"
      [⟨"ok.pdf", Except.ok []⟩] rfl).2⟩

/-- C2: on the exception-free path `create_excel` returns `None` (its
only `return` statement is in the `except` branch), so the `wb` bound in
`run` on the normal path is absent, every save attempt on it fails, and
`run` ends in an uncaught exception instead of saving the report. -/
theorem C2_create_excel_returns_none_on_normal_path :
    ∀ (invoices : List InvoiceData) (env : RunEnv),
      invoices ≠ [] →
      create_excel none invoices = none ∧
      (∀ primaryOk fallbackOk, savePhase (create_excel none invoices) primaryOk fallbackOk = none) ∧
      (env.pdfDirExists = true → env.docs ≠ [] → env.createExcelExc = none → run env = none) := by
  intro invoices env _
  refine ⟨rfl, fun p f => rfl, fun h1 h2 h3 => ?_⟩
  rcases env with ⟨pd, docs, exc, pok, fok⟩
  simp only at h1 h3
  subst h1
  subst h3
  cases docs with
  | nil => exact absurd rfl h2
  | cons d ds => rfl

/-- Witness for C2 at a one-record list and a concrete normal-path run. -/
theorem C2_witness :
    ([({ filename := "a.pdf" } : InvoiceData)] ≠ []) ∧
    create_excel none [({ filename := "a.pdf" } : InvoiceData)] = none ∧
    (∀ p f, savePhase (create_excel none [({ filename := "a.pdf" } : InvoiceData)]) p f = none) ∧
    run ⟨true, [⟨"e.pdf", Except.ok []⟩], none, true, true⟩ = none := by
  have h := C2_create_excel_returns_none_on_normal_path
    [({ filename := "a.pdf" } : InvoiceData)]
    ⟨true, [⟨"e.pdf", Except.ok []⟩], none, true, true⟩
    (List.cons_ne_nil _ _)
  exact ⟨List.cons_ne_nil _ _, h.1, h.2.1, h.2.2 rfl (List.cons_ne_nil _ _) rfl⟩

/-- C3: in every run that reaches the persistence step, the primary save
at the configured target is attempted first; the fallback save (whose
path differs from the primary path) is attempted exactly when the
primary one fails; the run returns `True` exactly when one of the two
tiers succeeds, and when both tiers fail the run ends in an uncaught,
fatal exception (`none`) rather than a saved report. -/
theorem C3_two_tier_save_policy :
    ∀ (env : RunEnv) (wb : Option Workbook) (p f : Bool) (ts : String),
      ((savePhaseTrace wb p f).1 = true ↔ wbSaveOk wb p = false) ∧
      (savePhase wb p f = some true ↔ (wbSaveOk wb p = true ∨ wbSaveOk wb f = true)) ∧
      (savePhase wb p f = none ↔ (wbSaveOk wb p = false ∧ wbSaveOk wb f = false)) ∧
      excel_path ts ≠ fallback_path ts ∧
      (env.pdfDirExists = true → env.docs ≠ [] →
        run env = savePhase (create_excel env.createExcelExc (process_batch env.docs))
          env.primarySaveOk env.fallbackSaveOk) := by
  intro env wb p f ts
  refine ⟨?_, ?_, ?_, ?_, ?_⟩
  · rcases wb with _ | w <;> rcases p <;> rcases f <;> simp [savePhaseTrace, wbSaveOk]
  · rcases wb with _ | w <;> rcases p <;> rcases f <;>
      simp [savePhase, savePhaseTrace, wbSaveOk]
  · rcases wb with _ | w <;> rcases p <;> rcases f <;>
      simp [savePhase, savePhaseTrace, wbSaveOk]
  · intro h
    have hlen := congrArg String.length h
    have hE : EXCEL_DIR.length = 59 := rfl
    have hB : ("\\" : String).length = 1 := rfl
    simp only [excel_path, fallback_path, String.length_append, hE, hB] at hlen
    omega
  · intro h1 h2
    rcases env with ⟨pd, docs, exc, pok, fok⟩
    simp only at h1 ⊢
    subst h1
    cases docs with
    | nil => exact absurd rfl h2
    | cons d ds => rfl

/-- Witness for C3 at a concrete environment where the workbook exists
(the `create_excel` exception branch returned it) and the primary save
succeeds. -/
theorem C3_witness :
    (⟨true, [⟨"e.pdf", Except.ok []⟩], some ⟨"Invoices", []⟩, true, false⟩ : RunEnv).pdfDirExists = true ∧
    (⟨true, [⟨"e.pdf", Except.ok []⟩], some ⟨"Invoices", []⟩, true, false⟩ : RunEnv).docs ≠ [] ∧
    run ⟨true, [⟨"e.pdf", Except.ok []⟩], some ⟨"Invoices", []⟩, true, false⟩ =
      savePhase (create_excel (some ⟨"Invoices", []⟩)
        (process_batch [⟨"e.pdf", Except.ok []⟩])) true false :=
  ⟨rfl, List.cons_ne_nil _ _,
    (C3_two_tier_save_policy ⟨true, [⟨"e.pdf", Except.ok []⟩], some ⟨"Invoices", []⟩, true, false⟩
      none true true "ts").2.2.2.2 rfl (List.cons_ne_nil _ _)⟩

/-- The label-qualified number pattern of the precedence example,
`Invoice\s*#?\s*:?\s*(\d+)` (the second entry of `Patterns.NUMBER`). -/
def labelQualifiedRE : RE :=
  .seq (reStr "Invoice") (.seq spaceStar (.seq (.opt (.lit '#')) (.seq spaceStar
    (.seq (.opt (.lit ':')) (.seq spaceStar digitsGroup)))))

/-- C6: `find_pattern` evaluates the patterns in listed order with a
case-insensitive search over the full text: if no pattern matches the
result is absent; if the pattern at index `i` matches while all earlier
ones do not, the result is exactly that pattern's group-1 capture; being
a total function it never raises. On a text containing a bare `200`
before `Invoice #: 100`, the list [label-qualified, bare-number] yields
`"100"` while the reversed list yields `"200"`, and the same text in a
different letter case still yields `"100"`. -/
theorem C6_find_pattern_order :
    (∀ (text : List Char) (ps : List RE),
        (∀ p ∈ ps, reSearch p text = none) → find_pattern text ps = none) ∧
    (∀ (text : List Char) (ps : List RE) (i : Nat) (p : RE) (g : Option (List Char)),
        ps[i]? = some p →
        (∀ j q, j < i → ps[j]? = some q → reSearch q text = none) →
        reSearch p text = some g →
        find_pattern text ps = g.map List.asString) ∧
    find_pattern "200 units ordered, Invoice #: 100".toList [labelQualifiedRE, digitsGroup] = some "100" ∧
    find_pattern "200 units ordered, Invoice #: 100".toList [digitsGroup, labelQualifiedRE] = some "200" ∧
    find_pattern "200 UNITS ORDERED, iNVOICE #: 100".toList [labelQualifiedRE, digitsGroup] = some "100" ∧
    find_pattern "no numbers here".toList [labelQualifiedRE, digitsGroup] = none := by
  refine ⟨?_, ?_, by decide, by decide, by decide, by decide⟩
  · intro text ps h
    induction ps with
    | nil => rfl
    | cons a as ih =>
        have ha : reSearch a text = none := h a (List.mem_cons_self a as)
        have has : find_pattern text as = none := ih (fun p hp => h p (List.mem_cons_of_mem a hp))
        simp [find_pattern, ha, has]
  · intro text ps
    induction ps with
    | nil => intro i p g hp _ _; simp at hp
    | cons a as ih =>
        intro i p g hp hprev hsearch
        cases i with
        | zero =>
            simp only [List.getElem?_cons_zero, Option.some.injEq] at hp
            subst hp
            simp [find_pattern, hsearch]
        | succ i =>
            have ha : reSearch a text = none := hprev 0 a (Nat.succ_pos i) (by simp)
            have tail := ih i p g (by simpa using hp)
              (fun j q hj hq => hprev (j + 1) q (Nat.succ_lt_succ hj) (by simpa using hq))
              hsearch
            simp [find_pattern, ha, tail]

/-- Witness for C6: the no-match case and the first-match case of the
universally quantified parts, instantiated at concrete inputs. -/
theorem C6_witness :
    (∀ p ∈ [labelQualifiedRE], reSearch p "no numbers here".toList = none) ∧
    find_pattern "no numbers here".toList [labelQualifiedRE] = none ∧
    ([digitsGroup][0]? = some digitsGroup) ∧
    reSearch digitsGroup "id 42".toList = some (some "42".toList) ∧
    find_pattern "id 42".toList [digitsGroup] = (some "42".toList).map List.asString :=
  ⟨by decide, C6_find_pattern_order.1 "no numbers here".toList [labelQualifiedRE] (by decide),
    rfl, by decide,
    C6_find_pattern_order.2.1 "id 42".toList [digitsGroup] 0 digitsGroup (some "42".toList)
      rfl (fun j q hj _ => absurd hj (Nat.not_lt_zero j)) (by decide)⟩

/-- C8 counterexample: a record whose value field is present but `0`
renders the `"Não encontrado"` sentinel in the value cell (Python `or`
treats `0.0` as falsy), so the sentinel does not appear if and only if
the field is absent. -/
theorem C8_counterexample :
    InvoiceData.to_row
        { filename := "a.pdf", number := some "7", date := some "01/01/2024",
          value := some 0, status := "Processado" } =
      [Cell.str "7", Cell.str "01/01/2024", Cell.str "Não encontrado",
        Cell.str "a.pdf", Cell.str "Processado"] ∧
    ({ filename := "a.pdf", number := some "7", date := some "01/01/2024",
        value := some 0, status := "Processado" } : InvoiceData).value ≠ none := by
  constructor
  · rfl
  · simp

/-- C8 (amended): the report is the fixed header row followed by one row
per record in input order, each row being [number, date, value, source
name, status] in header order — with the `"Não encontrado"` sentinel
standing in a number/date/value cell exactly when that field is absent
**or is a Python-falsy value** (the empty string for the text fields,
zero for the value). -/
theorem C8_amended_report_shape :
    ∀ (invoices : List InvoiceData) (inv : InvoiceData),
      create_excel_rows invoices = HEADERS :: invoices.map InvoiceData.to_row ∧
      (create_excel_rows invoices).length = invoices.length + 1 ∧
      (∀ i : Nat, (invoices.map InvoiceData.to_row)[i]? = (invoices[i]?).map InvoiceData.to_row) ∧
      inv.to_row = spec_row inv := by
  intro invoices inv
  refine ⟨rfl, by simp [create_excel_rows], fun i => by simp, ?_⟩
  rcases inv with ⟨fn, num, date, val, st⟩
  simp only [InvoiceData.to_row, spec_row, pyOrStr, pyOrNum]
  cases num <;> cases date <;> cases val <;> simp [String.isEmpty_iff]
